import Mathlib

set_option maxHeartbeats 1000000

/- Shallow embedding of the JDY-31 / PSG9080 signal-generator control program
   (control_bt.py).  Python strings are modelled as Lean strings, the frame
   text is manipulated through their character lists, the loosely typed
   status dictionaries become association lists from keys to tagged values,
   and Python float arithmetic on the pre-scaled integers is modelled
   exactly over the rationals. -/

/-- Python str.isspace set used by str.strip with no arguments. -/
def isPySpace (c : Char) : Bool :=
  c == ' ' || c == '\t' || c == '\n' || c == '\r' || c == '\x0b' || c == '\x0c'

/-- Python str.strip with no arguments: whitespace removed from both ends. -/
def trimWs (s : List Char) : List Char :=
  ((s.dropWhile isPySpace).reverse.dropWhile isPySpace).reverse

/-- Python str.strip with an explicit character set. -/
def stripChars (bad : List Char) (s : List Char) : List Char :=
  ((s.dropWhile (fun c => bad.contains c)).reverse.dropWhile
    (fun c => bad.contains c)).reverse

/-- The strip set used throughout parse_status_response. -/
def stripDots (s : List Char) : List Char :=
  stripChars ['.', '\r', '\n'] s

/-- Python str.split on a one-character separator (no maxsplit). -/
def splitOnChar (c : Char) : List Char → List (List Char)
  | [] => [[]]
  | x :: xs =>
    if x == c then [] :: splitOnChar c xs
    else
      match splitOnChar c xs with
      | h :: t => (x :: h) :: t
      | [] => [[x]]

/-- First character test, as in Python str.startswith on one character. -/
def startsWith1 (c : Char) (s : List Char) : Bool :=
  match s with
  | [] => false
  | x :: _ => x == c

/-- Python str.startswith on a string, via the character lists. -/
def pyStartsWith (s pre : String) : Bool :=
  pre.data.isPrefixOf s.data

/-- Python str.endswith on a string, via the character lists. -/
def pyEndsWith (s suffix : String) : Bool :=
  suffix.data.isSuffixOf s.data

/-- Value of a nonempty digit string. -/
def digitsVal (l : List Char) : Nat :=
  l.foldl (fun a c => a * 10 + (c.toNat - 48)) 0

/-- Python int(str): surrounding whitespace allowed, optional sign, then a
    nonempty run of decimal digits; anything else raises ValueError,
    modelled as none. -/
def pyIntL (s : List Char) : Option Int :=
  let t := trimWs s
  match t with
  | [] => none
  | '-' :: rest =>
    if rest.length > 0 && rest.all Char.isDigit then
      some (-(digitsVal rest : Int))
    else none
  | '+' :: rest =>
    if rest.length > 0 && rest.all Char.isDigit then
      some ((digitsVal rest : Int))
    else none
  | _ =>
    if t.all Char.isDigit then some ((digitsVal t : Int)) else none

/-- Python int(cmd_type[1]): index 1 of the string (IndexError when too
    short) followed by int() of the single character. -/
def charDigitAt1 (s : List Char) : Option Int :=
  match s.get? 1 with
  | none => none
  | some c => if c.isDigit then some ((c.toNat - 48 : Nat) : Int) else none

/-- Python int() truncates a float toward zero; on an exact rational the
    truncated quotient of numerator by denominator. -/
def pyTrunc (q : ℚ) : Int :=
  Int.tdiv q.num (q.den : Int)

/-- Python true division of two integers yields a float; on the pre-scaled
    protocol integers it is exact, so it is modelled as the exact rational
    quotient.  Rat.divInt is used rather than the field division of ℚ so
    that the quotient is kernel-computable; the lemma pyFloatDiv_eq_div
    below shows it coincides with division in ℚ. -/
def pyFloatDiv (n d : Int) : ℚ :=
  Rat.divInt n d

/-- A value stored in the status dictionaries: Python bool, int or float
    (floats arise from the exact scale divisions and are modelled as
    rationals). -/
inductive SVal where
  | b (x : Bool)
  | i (x : Int)
  | q (x : ℚ)
  deriving DecidableEq, Repr

/-- Python dict assignment d[k] = v on a string-keyed dictionary. -/
def dset (d : List (String × SVal)) (k : String) (v : SVal) :
    List (String × SVal) :=
  if d.any (fun p => p.1 == k) then
    d.map (fun p => if p.1 == k then (k, v) else p)
  else d ++ [(k, v)]

/-- Python dict lookup d.get(k). -/
def dget (d : List (String × SVal)) (k : String) : Option SVal :=
  (d.find? (fun p => p.1 == k)).map (fun p => p.2)

/-- The mutable state of BLEWorker touched by the response parser:
    self.status and self.measurement_data. -/
structure PState where
  status : List (String × SVal)
  meas : List (String × SVal)
  deriving DecidableEq, Repr

/-- The empty worker state (both dictionaries empty, as at session start). -/
def empty_state : PState := ⟨[], []⟩

/-- Qt signals emitted while handling one inbound frame. -/
inductive Ev where
  | notificationReceived (msg : String)
  | statusUpdated (s : List (String × SVal))
  | measurementUpdated (m : List (String × SVal))
  | errorMsg
  deriving DecidableEq, Repr

/-- One single-field assignment of the form
    status[key] = int(value.strip(".\r\n")) / den
    (the float division is exact on these pre-scaled integers, so it is a
    rational).  A ValueError inside int() propagates as the error case and
    carries the state reached so far. -/
def setScaledQ (st : PState) (value : List Char) (key : String) (den : Int) :
    Except PState PState :=
  match pyIntL (stripDots value) with
  | none => .error st
  | some n => .ok { st with status := dset st.status key (SVal.q (pyFloatDiv n den)) }

/-- status[key] = int(value.strip(".\r\n")), stored as a Python int. -/
def setParsedInt (st : PState) (value : List Char) (key : String) :
    Except PState PState :=
  match pyIntL (stripDots value) with
  | none => .error st
  | some n => .ok { st with status := dset st.status key (SVal.i n) }

/-- The comma-pair pattern used by codes 40, 41, 42 and 57 to 61:
    parts = value.split(","); when at least two parts are present the first
    assignment happens before the second int() is attempted, so a failure
    on the second field leaves the first field already mutated. -/
def setPairInts (st : PState) (value : List Char) (k1 k2 : String) :
    Except PState PState :=
  match splitOnChar ',' value with
  | p0 :: p1 :: _ =>
    match pyIntL (trimWs p0) with
    | none => .error st
    | some a =>
      let st1 := { st with status := dset st.status k1 (SVal.i a) }
      match pyIntL (stripDots p1) with
      | none => .error st1
      | some b => .ok { st1 with status := dset st1.status k2 (SVal.i b) }
  | _ => .ok st

/-- Codes 13 and 14: frequency value and unit; both fields are converted
    before either assignment happens. -/
def setFreqPair (st : PState) (value : List Char) (channel : Int) :
    Except PState PState :=
  match splitOnChar ',' value with
  | p0 :: p1 :: _ =>
    match pyIntL (trimWs p0) with
    | none => .error st
    | some fv =>
      match pyIntL (stripDots p1) with
      | none => .error st
      | some fu =>
        let d1 := dset st.status ("ch" ++ toString channel ++ "_frequency") (SVal.q (pyFloatDiv fv 1000))
        let d2 := dset d1 ("ch" ++ toString channel ++ "_freq_unit") (SVal.i fu)
        .ok { st with status := d2 }
  | _ => .ok st

/-- Code 10: both output flags; note that the second field keeps its
    trailing dot because only whitespace is stripped before the comparison
    with "1". -/
def setOutputs (st : PState) (value : List Char) : PState :=
  match splitOnChar ',' value with
  | p0 :: p1 :: _ =>
    let d1 := dset st.status "ch1_output" (SVal.b (trimWs p0 == ['1']))
    let d2 := dset d1 "ch2_output" (SVal.b (trimWs p1 == ['1']))
    { st with status := d2 }
  | _ => st

/-- Codes 17 and 18: a wire value of exactly 1000 stores the Python int 0,
    every other wire value stores (value - 1000) / 100 as a float. -/
def setOffsetVal (st : PState) (value : List Char) (channel : Int) :
    Except PState PState :=
  match pyIntL (stripDots value) with
  | none => .error st
  | some ov =>
    if ov == 1000 then
      let d1 := dset st.status ("ch" ++ toString channel ++ "_offset") (SVal.i 0)
      .ok { st with status := d1 }
    else
      let d1 := dset st.status ("ch" ++ toString channel ++ "_offset") (SVal.q (pyFloatDiv (ov - 1000) 100))
      .ok { st with status := d1 }

/-- The r1x / r2x series (codes 11 to 22 as dispatched by the source):
    the second character of the code picks the branch. -/
def series12 (st : PState) (cmdType value : List Char) : Except PState PState :=
  if startsWith1 '1' cmdType then
    match charDigitAt1 cmdType with
    | none => .error st
    | some cmdNum =>
      if cmdNum ≤ 2 then
        setParsedInt st value ("ch" ++ toString cmdNum ++ "_waveform")
      else if cmdNum ≤ 4 then
        setFreqPair st value (cmdNum - 2)
      else if cmdNum ≤ 6 then
        setScaledQ st value ("ch" ++ toString (cmdNum - 4) ++ "_amplitude") 1000
      else if cmdNum ≤ 8 then
        setOffsetVal st value (cmdNum - 6)
      else if cmdNum == 9 then
        setScaledQ st value "ch1_duty" 100
      else if cmdNum == 0 then
        setScaledQ st value "ch2_duty" 100
      else .ok st
  else if startsWith1 '2' cmdType then
    match charDigitAt1 cmdType with
    | none => .error st
    | some num =>
      if num ≤ 2 then
        setScaledQ st value ("ch" ++ toString num ++ "_phase") 100
      else .ok st
  else .ok st

/-- The modulation series, codes 40 to 56. -/
def seriesMod (st : PState) (cmdNum : Int) (value : List Char) :
    Except PState PState :=
  if cmdNum == 40 then setPairInts st value "ch1_mod_type" "ch2_mod_type"
  else if cmdNum == 41 then setPairInts st value "ch1_mod_wave" "ch2_mod_wave"
  else if cmdNum == 42 then setPairInts st value "ch1_mod_source" "ch2_mod_source"
  else if cmdNum == 43 then setScaledQ st value "ch1_mod_freq" 1000
  else if cmdNum == 44 then setScaledQ st value "ch2_mod_freq" 1000
  else if cmdNum == 45 then setScaledQ st value "ch1_am_depth" 10
  else if cmdNum == 46 then setScaledQ st value "ch2_am_depth" 10
  else if cmdNum == 47 then setScaledQ st value "ch1_fm_deviation" 10
  else if cmdNum == 48 then setScaledQ st value "ch2_fm_deviation" 10
  else if cmdNum == 49 then setScaledQ st value "ch1_fsk_hopping" 10
  else if cmdNum == 50 then setScaledQ st value "ch2_fsk_hopping" 10
  else if cmdNum == 51 then setScaledQ st value "ch1_pm_phase" 10
  else if cmdNum == 52 then setScaledQ st value "ch2_pm_phase" 10
  else if cmdNum == 53 then setScaledQ st value "ch1_pulse_width" 1000
  else if cmdNum == 54 then setScaledQ st value "ch2_pulse_width" 1000
  else if cmdNum == 55 then setScaledQ st value "ch1_pulse_period" 100
  else if cmdNum == 56 then setScaledQ st value "ch2_pulse_period" 100
  else .ok st

/-- The burst series, codes 57 to 61, all comma pairs. -/
def seriesBurst (st : PState) (cmdNum : Int) (value : List Char) :
    Except PState PState :=
  if cmdNum == 57 then
    setPairInts st value "ch1_pulse_inversion" "ch2_pulse_inversion"
  else if cmdNum == 58 then setPairInts st value "ch1_burst_idle" "ch2_burst_idle"
  else if cmdNum == 59 then setPairInts st value "ch1_polarity" "ch2_polarity"
  else if cmdNum == 60 then
    setPairInts st value "ch1_trigger_source" "ch2_trigger_source"
  else if cmdNum == 61 then setPairInts st value "ch1_burst_count" "ch2_burst_count"
  else .ok st

/-- setScaledQ into the measurement dictionary. -/
def setMeasQ (st : PState) (value : List Char) (key : String) (den : Int) :
    Except PState PState :=
  match pyIntL (stripDots value) with
  | none => .error st
  | some n => .ok { st with meas := dset st.meas key (SVal.q (pyFloatDiv n den)) }

/-- setParsedInt into the measurement dictionary. -/
def setMeasInt (st : PState) (value : List Char) (key : String) :
    Except PState PState :=
  match pyIntL (stripDots value) with
  | none => .error st
  | some n => .ok { st with meas := dset st.meas key (SVal.i n) }

/-- The measurement series, codes 80 to 86, writing measurement_data. -/
def seriesMeas (st : PState) (cmdNum : Int) (value : List Char) :
    Except PState PState :=
  if cmdNum == 80 then setMeasInt st value "count"
  else if cmdNum == 81 then setMeasQ st value "high_freq" 1000
  else if cmdNum == 82 then setMeasQ st value "low_freq" 1000
  else if cmdNum == 83 then setMeasQ st value "pos_pulse_width" 1000
  else if cmdNum == 84 then setMeasQ st value "neg_pulse_width" 1000
  else if cmdNum == 85 then setMeasQ st value "period" 100
  else if cmdNum == 86 then setMeasQ st value "duty_cycle" 100
  else .ok st

/-- The if/elif ladder of parse_status_response after the "=" split: keyed
    on the two-character code left after dropping the prefix.  The returned
    event list holds the measurement_updated emission when the code falls
    in the 8x branch; the error case carries the mutations made before the
    exception was raised. -/
def parseBody (st : PState) (cmdType value : List Char) :
    Except PState (PState × List Ev) :=
  if cmdType == ['1', '0'] then
    .ok (setOutputs st value, [])
  else if startsWith1 '1' cmdType || startsWith1 '2' cmdType then
    match pyIntL cmdType with
    | none => .error st
    | some n =>
      if n ≤ 22 then (series12 st cmdType value).map (fun s => (s, []))
      else .ok (st, [])
  else if startsWith1 '4' cmdType then
    match pyIntL cmdType with
    | none => .error st
    | some n => (seriesMod st n value).map (fun s => (s, []))
  else if startsWith1 '5' cmdType then
    match pyIntL cmdType with
    | none => .error st
    | some n =>
      if n ≤ 56 then (seriesMod st n value).map (fun s => (s, []))
      else if 57 ≤ n && n ≤ 61 then
        (seriesBurst st n value).map (fun s => (s, []))
      else .ok (st, [])
  else if startsWith1 '8' cmdType then
    match pyIntL cmdType with
    | none => .error st
    | some n =>
      (seriesMeas st n value).map (fun s => (s, [Ev.measurementUpdated s.meas]))
  else .ok (st, [])

/-- BLEWorker.parse_status_response.  A frame without "=" falls through the
    whole body without touching anything and without emitting anything; a
    frame with "=" is split at the first "=", the command part is
    whitespace-stripped and its first two characters (the ":r" or ":w"
    prefix) dropped, and the remaining code is dispatched; on success a
    status_updated signal carrying the final status dictionary is emitted
    after any measurement_updated signal, and on an exception only the
    catch-all error message is emitted while mutations already made are
    kept. -/
def parse_status_response (st : PState) (response : String) : PState × List Ev :=
  let rl := response.data
  if rl.contains '=' then
    let cmd := trimWs (rl.takeWhile (fun c => c != '='))
    let value := (rl.dropWhile (fun c => c != '=')).drop 1
    let cmdType := cmd.drop 2
    match parseBody st cmdType value with
    | .ok (st2, evs) => (st2, evs ++ [Ev.statusUpdated st2.status])
    | .error st2 => (st2, [Ev.errorMsg])
  else (st, [])

/-- BLEWorker.notification_handler: the payload is whitespace-stripped,
    re-emitted verbatim as notification_received, and handed to
    parse_status_response only when it starts with ":r". -/
def notification_handler (st : PState) (data : String) : PState × List Ev :=
  let message : String := ⟨trimWs data.data⟩
  if pyStartsWith message ":r" then
    let r := parse_status_response st message
    (r.1, Ev.notificationReceived message :: r.2)
  else (st, [Ev.notificationReceived message])

/-- The PARAM_OFFSETS table: offset added to the channel number to form
    the two-digit code of each w1x / r1x style command. -/
def PARAM_OFFSETS (param : String) : Nat :=
  if param == "waveform" then 0
  else if param == "frequency" then 2
  else if param == "amplitude" then 4
  else if param == "offset" then 6
  else if param == "duty" then 18
  else 0

/-- SignalGeneratorUI.update_parameter, waveform case: the enum index is
    written verbatim with code 10 + channel. -/
def update_parameter_waveform (channel : Nat) (waveformIdx : Int) : String :=
  ":w1" ++ toString (channel + PARAM_OFFSETS "waveform") ++ "=" ++ toString waveformIdx ++ "."

/-- update_parameter, frequency case: int(value*1000) and the unit index as
    a comma pair, code 12 + channel. -/
def update_parameter_frequency (channel : Nat) (v : ℚ) (unitIdx : Int) : String :=
  ":w1" ++ toString (channel + PARAM_OFFSETS "frequency") ++ "=" ++
    toString (pyTrunc (v * 1000)) ++ "," ++ toString unitIdx ++ "."

/-- update_parameter, amplitude case: int(value*1000), code 14 + channel. -/
def update_parameter_amplitude (channel : Nat) (v : ℚ) : String :=
  ":w1" ++ toString (channel + PARAM_OFFSETS "amplitude") ++ "=" ++
    toString (pyTrunc (v * 1000)) ++ "."

/-- update_parameter, offset wire value: exactly 0 volts becomes 1000,
    anything else becomes int(1000 + value*100). -/
def offset_wire (v : ℚ) : Int :=
  if v = 0 then 1000 else pyTrunc (1000 + v * 100)

/-- update_parameter, offset case, code 16 + channel. -/
def update_parameter_offset (channel : Nat) (v : ℚ) : String :=
  ":w1" ++ toString (channel + PARAM_OFFSETS "offset") ++ "=" ++
    toString (offset_wire v) ++ "."

/-- update_parameter, duty case: int(value*100) with code 18 + channel. -/
def update_parameter_duty (channel : Nat) (v : ℚ) : String :=
  ":w" ++ toString (18 + channel) ++ "=" ++ toString (pyTrunc (v * 100)) ++ "."

/-- update_parameter, phase case: int(value*100) with code 20 + channel. -/
def update_parameter_phase (channel : Nat) (v : ℚ) : String :=
  ":w2" ++ toString channel ++ "=" ++ toString (pyTrunc (v * 100)) ++ "."

/-- BLEWorker.queue_command: when the event loop exists the command is put
    on the asyncio queue (appended), otherwise the call silently does
    nothing; in neither case is any signal emitted or any error raised. -/
def queue_command (loopExists : Bool) (queue : List String) (command : String) :
    List String × List Ev :=
  if loopExists then (queue ++ [command], []) else (queue, [])

/-- Observable actions of the send / refresh path. -/
inductive REv where
  | refreshStarted
  | write (s : String)
  | notConnectedMsg
  | progress (i total : Nat)
  | refreshCompleted
  deriving DecidableEq, Repr

/-- BLEWorker.send_command: with no connected client only the
    "Not connected. Cannot send command." diagnostic is emitted and the
    transport write never happens; otherwise CR LF is appended when missing
    and the bytes are written. -/
def send_command_events (connected : Bool) (command : String) : List REv :=
  if !connected then [REv.notConnectedMsg]
  else
    let c := if pyEndsWith command "\r\n" then command else command ++ "\r\n"
    [REv.write c]

/-- The parameter list iterated by query_device_status. -/
def refresh_params : List String :=
  ["waveform", "frequency", "amplitude", "offset", "duty", "phase"]

/-- The full ordered read-command list built by BLEWorker.query_device_status:
    output status, then the parameter-outer double loop over
    the six channel parameters, then codes 40 to 56, 57 to 61, 80 to 86 and
    finally 62 and 63. -/
def read_commands : List String :=
  [":r10=0."]
  ++ (refresh_params.flatMap (fun param =>
       [1, 2].flatMap (fun channel =>
         if param == "waveform" || param == "frequency" ||
            param == "amplitude" || param == "offset" then
           [":r1" ++ toString (channel + PARAM_OFFSETS param) ++ "=0."]
         else if param == "duty" then
           [":r" ++ toString (channel + 18) ++ "=0."]
         else if param == "phase" then
           [":r2" ++ toString channel ++ "=0."]
         else [])))
  ++ ((List.range' 40 17).map (fun c => ":r" ++ toString c ++ "=0."))
  ++ ((List.range' 57 5).map (fun c => ":r" ++ toString c ++ "=0."))
  ++ ((List.range' 80 7).map (fun c => ":r" ++ toString c ++ "=0."))
  ++ [":r62=0.", ":r63=0."]

/-- BLEWorker.query_device_status: emits refresh_started, then for every
    read command in order runs send_command followed by one
    refresh_progress(i+1, total) emission, and finally refresh_completed.
    The refreshing flag is assigned but never consulted, so the run is the
    same whatever its prior value; the function leaves the flag False. -/
def query_device_status (connected refreshing : Bool) : Bool × List REv :=
  let total := read_commands.length
  (false,
    REv.refreshStarted ::
      (read_commands.enum.flatMap
        (fun p => send_command_events connected p.2 ++ [REv.progress (p.1 + 1) total]))
      ++ [REv.refreshCompleted])

/-- The (i, total) arguments of the progress emissions of a trace. -/
def progressArgs (evs : List REv) : List (Nat × Nat) :=
  evs.filterMap (fun e =>
    match e with
    | REv.progress i t => some (i, t)
    | _ => none)

/-- Recognizer for progress events. -/
def isProgress (e : REv) : Bool :=
  match e with
  | REv.progress _ _ => true
  | _ => false

/-- Recognizer for transport writes. -/
def isWrite (e : REv) : Bool :=
  match e with
  | REv.write _ => true
  | _ => false

/-- Number of transport writes in a trace. -/
def writeCount (evs : List REv) : Nat :=
  (evs.filter isWrite).length

/-- Number of refresh_completed emissions in a trace. -/
def completedCount (evs : List REv) : Nat :=
  evs.count REv.refreshCompleted

/-- Every progress emission of the trace directly follows a transport
    write (one progress emission after each command submission). -/
def progressAfterWrite (evs : List REv) : Bool :=
  (List.range evs.length).all (fun j =>
    !(isProgress (evs.getD j REv.refreshCompleted)) ||
      (decide (0 < j) && isWrite (evs.getD (j - 1) REv.refreshCompleted)))

/-- pyFloatDiv coincides with division in the field ℚ, so the decoder
    stores exactly the quotients the source computes. -/
theorem pyFloatDiv_eq_div (n d : ℤ) : pyFloatDiv n d = (n : ℚ) / (d : ℚ) := by
  rw [pyFloatDiv, Rat.divInt_eq_div]

/-- Truncation toward zero of an integer-valued rational is the integer. -/
theorem pyTrunc_intCast (n : ℤ) : pyTrunc ((n : ℚ)) = n := by
  simp [pyTrunc, Rat.num_intCast, Rat.den_intCast]

/-- C1: the encode/decode round trip is claimed to hold for every
    parameter, but it fails for the channel-2 duty cycle: encoding duty 50
    for channel 2 produces the code-20 frame, yet decoding the code-20
    response stores 50 under the nonexistent key ch0_phase (the frame is
    routed into the phase branch with channel = 0) and leaves ch2_duty
    absent, while the channel-1 round trip through code 19 works.  This
    theorem evaluates the code at the failing input. -/
theorem C1_duty_ch2_roundtrip_fails :
    update_parameter_duty 2 50 = ":w20=5000." ∧
    update_parameter_duty 1 50 = ":w19=5000." ∧
    dget (parse_status_response empty_state ":r19=5000.").1.status "ch1_duty"
      = some (SVal.q 50) ∧
    (parse_status_response empty_state ":r20=5000.").1.status
      = [("ch0_phase", SVal.q 50)] ∧
    dget (parse_status_response empty_state ":r20=5000.").1.status "ch2_duty"
      = none := by
  have h : (50 : ℚ) * 100 = 5000 := by norm_num
  refine ⟨?_, ?_, by decide, by decide, by decide⟩
  · rw [update_parameter_duty, h]
    decide
  · rw [update_parameter_duty, h]
    decide

/-- C2: code 19 does store the field divided by 100 as the channel-1 duty
    cycle, but code 20 does not reach the duty branch at all: the frame
    with code 20 stores the scaled value under ch0_phase and the channel-2
    duty cycle key stays absent.  This theorem evaluates the code at the
    failing input. -/
theorem C2_duty_codes_19_20 :
    dget (parse_status_response empty_state ":r19=1234.").1.status "ch1_duty"
      = some (SVal.q (Rat.divInt 1234 100)) ∧
    (Rat.divInt 1234 100 : ℚ) = 1234 / 100 ∧
    (parse_status_response empty_state ":r20=1234.").1.status
      = [("ch0_phase", SVal.q (Rat.divInt 1234 100))] ∧
    dget (parse_status_response empty_state ":r20=1234.").1.status "ch2_duty"
      = none := by
  refine ⟨by decide, ?_, by decide, by decide⟩
  rw [Rat.divInt_eq_div]
  norm_num

/-- C3 counterexample: the unparseable frame ":r40=3,x." (non-numeric
    second field of a comma pair) does mutate DeviceState: ch1_mod_type is
    assigned before the failure, so the state is not left completely
    unchanged as the claim requires. -/
theorem C3_unparseable_counterexample :
    (parse_status_response empty_state ":r40=3,x.").1 ≠ empty_state ∧
    (parse_status_response empty_state ":r40=3,x.").1.status
      = [("ch1_mod_type", SVal.i 3)] ∧
    (parse_status_response empty_state ":r40=3,x.").2 = [Ev.errorMsg] := by
  decide

/-- C3 amended: no error escapes the router, but the fine structure
    differs from the claim: a frame without "=" (such as ":r99garbage") is
    dropped silently with no diagnostic and no state change; a frame with
    an unrecognized code leaves the state unchanged yet still emits a
    state-changed event; a non-numeric single field leaves the state
    unchanged and emits only the diagnostic; and a comma-pair frame whose
    second field is non-numeric mutates the first field before the
    diagnostic is emitted. -/
theorem C3_router_amended (s : PState) (r : String)
    (h : r.data.contains '=' = false) :
    parse_status_response s r = (s, []) ∧
    parse_status_response empty_state ":r99garbage" = (empty_state, []) ∧
    parse_status_response empty_state ":r99=0."
      = (empty_state, [Ev.statusUpdated []]) ∧
    parse_status_response empty_state ":r15=abc."
      = (empty_state, [Ev.errorMsg]) ∧
    parse_status_response empty_state ":r40=3,x."
      = ({ status := [("ch1_mod_type", SVal.i 3)], meas := [] },
         [Ev.errorMsg]) := by
  refine ⟨?_, by decide, by decide, by decide, by decide⟩
  simp at h
  simp [parse_status_response, h]

/-- C3 witness: the amended router theorem applied to the concrete
    malformed frame ":r99garbage", which contains no "=". -/
theorem C3_router_amended_witness :
    parse_status_response empty_state ":r99garbage" = (empty_state, []) ∧
    parse_status_response empty_state ":r99garbage" = (empty_state, []) ∧
    parse_status_response empty_state ":r99=0."
      = (empty_state, [Ev.statusUpdated []]) ∧
    parse_status_response empty_state ":r15=abc."
      = (empty_state, [Ev.errorMsg]) ∧
    parse_status_response empty_state ":r40=3,x."
      = ({ status := [("ch1_mod_type", SVal.i 3)], meas := [] },
         [Ev.errorMsg]) :=
  C3_router_amended empty_state ":r99garbage" (by decide)

/-- C4: offset encoding maps 0 V to wire value 1000 (frame ":w17=1000."
    for channel 1) and every other grid voltage v to 1000 + v*100, and the
    decoder inverts this: wire 1000 decodes to 0, 1250 decodes to 5/2 and
    750 decodes to -5/2.  The encode law is stated for voltages on the
    0.01 V grid of the two-decimal spin box, whose products with 100 are
    integers. -/
theorem C4_offset_codec (v : ℚ) (hden : (v * 100).den = 1) (hv : v ≠ 0) :
    update_parameter_offset 1 0 = ":w17=1000." ∧
    offset_wire 0 = 1000 ∧
    ((offset_wire v : ℤ) : ℚ) = 1000 + v * 100 ∧
    parse_status_response empty_state ":r17=1000."
      = ({ status := [("ch1_offset", SVal.i 0)], meas := [] },
         [Ev.statusUpdated [("ch1_offset", SVal.i 0)]]) ∧
    dget (parse_status_response empty_state ":r17=1250.").1.status "ch1_offset"
      = some (SVal.q (Rat.divInt 5 2)) ∧
    dget (parse_status_response empty_state ":r17=750.").1.status "ch1_offset"
      = some (SVal.q (Rat.divInt (-5) 2)) ∧
    (Rat.divInt 5 2 : ℚ) = 5 / 2 := by
  refine ⟨by decide, by decide, ?_, by decide, by decide, by decide, ?_⟩
  · rw [offset_wire, if_neg hv]
    have hw : ((v * 100).num : ℚ) = v * 100 := by
      have h := Rat.num_div_den (v * 100)
      rw [hden] at h
      simpa using h
    have h2 : (1000 : ℚ) + v * 100 = (((1000 + (v * 100).num : ℤ)) : ℚ) := by
      push_cast
      rw [hw]
    rw [h2, pyTrunc_intCast]
  · rw [Rat.divInt_eq_div]
    norm_num

/-- C4 witness: the offset codec theorem applied at the concrete voltage
    5/2 V, which lies on the 0.01 V grid and is nonzero. -/
theorem C4_offset_codec_witness :
    update_parameter_offset 1 0 = ":w17=1000." ∧
    offset_wire 0 = 1000 ∧
    ((offset_wire ((5 : ℚ) / 2) : ℤ) : ℚ) = 1000 + (5 : ℚ) / 2 * 100 ∧
    parse_status_response empty_state ":r17=1000."
      = ({ status := [("ch1_offset", SVal.i 0)], meas := [] },
         [Ev.statusUpdated [("ch1_offset", SVal.i 0)]]) ∧
    dget (parse_status_response empty_state ":r17=1250.").1.status "ch1_offset"
      = some (SVal.q (Rat.divInt 5 2)) ∧
    dget (parse_status_response empty_state ":r17=750.").1.status "ch1_offset"
      = some (SVal.q (Rat.divInt (-5) 2)) ∧
    (Rat.divInt 5 2 : ℚ) = 5 / 2 :=
  C4_offset_codec ((5 : ℚ) / 2)
    (by
      have h : (5 : ℚ) / 2 * 100 = 250 := by norm_num
      rw [h]
      rfl)
    (by norm_num)

/-- C5: the full refresh issues its read commands in exactly the claimed
    order: output status 10 first, then waveform, frequency, amplitude and
    offset for channel 1 then channel 2 with the parameter outermost
    (codes 11 to 18), then duty 19 and 20, then phase 21 and 22, then 40
    to 56 ascending, then 57 to 61, then 80 to 86, and 62 and 63 last. -/
theorem C5_refresh_read_order :
    read_commands =
      [":r10=0.",
       ":r11=0.", ":r12=0.", ":r13=0.", ":r14=0.",
       ":r15=0.", ":r16=0.", ":r17=0.", ":r18=0.",
       ":r19=0.", ":r20=0.", ":r21=0.", ":r22=0.",
       ":r40=0.", ":r41=0.", ":r42=0.", ":r43=0.", ":r44=0.",
       ":r45=0.", ":r46=0.", ":r47=0.", ":r48=0.", ":r49=0.",
       ":r50=0.", ":r51=0.", ":r52=0.", ":r53=0.", ":r54=0.",
       ":r55=0.", ":r56=0.",
       ":r57=0.", ":r58=0.", ":r59=0.", ":r60=0.", ":r61=0.",
       ":r80=0.", ":r81=0.", ":r82=0.", ":r83=0.", ":r84=0.",
       ":r85=0.", ":r86=0.",
       ":r62=0.", ":r63=0."] := by
  decide

/-- C6: during one connected refresh run the progress signal is emitted
    with arguments (i, 44) for i = 1 up to 44, strictly increasing with
    the total held constant at the length of the read-command list, each
    progress emission directly follows one command submission, and exactly
    one refresh_completed signal ends the trace. -/
theorem C6_refresh_progress_protocol :
    progressArgs (query_device_status true false).2
      = (List.range' 1 44).map (fun i => (i, 44)) ∧
    read_commands.length = 44 ∧
    writeCount (query_device_status true false).2 = 44 ∧
    completedCount (query_device_status true false).2 = 1 ∧
    (query_device_status true false).2.getLast? = some REv.refreshCompleted ∧
    progressAfterWrite (query_device_status true false).2 = true := by
  decide

/-- C7 counterexample: starting a refresh while the refreshing flag is
    already set is not rejected: the call still emits refresh_started and
    runs the whole command sequence with progress restarting at (1, 44),
    contradicting the claimed RefreshInProgressError rejection. -/
theorem C7_second_start_counterexample :
    (query_device_status true true).2.head? = some REv.refreshStarted ∧
    progressArgs (query_device_status true true).2
      = (List.range' 1 44).map (fun i => (i, 44)) := by
  decide

/-- C7 amended: there is no reentrancy guard at all: query_device_status
    assigns the refreshing flag but never consults it, so a second start
    while running behaves exactly like a first start, re-issuing all 44
    reads and resetting the reported progress, and it leaves the flag
    cleared. -/
theorem C7_no_reentrancy_guard (b : Bool) :
    query_device_status true b = query_device_status true false ∧
    (query_device_status true b).1 = false ∧
    writeCount (query_device_status true b).2 = 44 := by
  cases b <;> exact ⟨rfl, rfl, by decide⟩

/-- C8 counterexample: enqueueing with a live event loop but no connected
    session appends the command to the queue (it is buffered, not dropped)
    and emits no error of any kind, contradicting the claimed
    NotConnectedError rejection at enqueue time. -/
theorem C8_enqueue_buffered_counterexample :
    queue_command true [] ":w10=1,1." = ([":w10=1,1."], []) ∧
    queue_command false [] ":w10=1,1." = ([], []) := by
  decide

/-- C8 amended: queue_command never raises and never emits: with no event
    loop the command silently vanishes, with a loop it is appended to the
    queue whatever the connection state; the "Not connected" diagnostic is
    produced only later by send_command when the command is consumed
    without an active connection, and in that case the transport write
    never happens. -/
theorem C8_enqueue_amended (q : List String) (c : String) :
    queue_command true q c = (q ++ [c], []) ∧
    queue_command false q c = (q, []) ∧
    send_command_events false c = [REv.notConnectedMsg] ∧
    writeCount (send_command_events false c) = 0 :=
  ⟨rfl, rfl, rfl, rfl⟩

/-- C9 counterexample: the out-of-domain duty value 150 (the declared
    domain is 0 to 100) is not rejected: update_parameter builds the frame
    ":w19=15000." and it is enqueued, so no ValidationError exists before
    the frame is built or enqueued. -/
theorem C9_out_of_domain_encoded_counterexample :
    queue_command true [] (update_parameter_duty 1 150)
      = ([":w19=15000."], []) := by
  have h : (150 : ℚ) * 100 = 15000 := by norm_num
  rw [update_parameter_duty, h]
  decide

/-- C9 amended: the encoder performs no domain validation: any value is
    scaled, truncated and enqueued, including duty 150 and phase 400 which
    lie outside the claimed domains; the only domain restriction in the
    program is the spin-box range of the widgets, and even that range
    admits phase 360, which the claimed domain [0, 360) excludes. -/
theorem C9_no_validation_amended :
    update_parameter_duty 1 150 = ":w19=15000." ∧
    update_parameter_phase 1 400 = ":w21=40000." ∧
    update_parameter_phase 2 360 = ":w22=36000." ∧
    update_parameter_duty 2 ((75 : ℚ) / 2) = ":w20=3750." ∧
    queue_command true [] (update_parameter_phase 1 400)
      = ([":w21=40000."], []) := by
  have h1 : (150 : ℚ) * 100 = 15000 := by norm_num
  have h2 : (400 : ℚ) * 100 = 40000 := by norm_num
  have h3 : (360 : ℚ) * 100 = 36000 := by norm_num
  have h4 : (75 : ℚ) / 2 * 100 = 3750 := by norm_num
  refine ⟨?_, ?_, ?_, ?_, ?_⟩
  · rw [update_parameter_duty, h1]
    decide
  · rw [update_parameter_phase, h2]
    decide
  · rw [update_parameter_phase, h3]
    decide
  · rw [update_parameter_duty, h4]
    decide
  · rw [update_parameter_phase, h2]
    decide

/-- C10 counterexample: the well-formed echo frame ":w15=5000." is not
    decoded and not applied: the router only hands frames starting with
    ":r" to the decoder, so the state stays empty, while the same frame
    with an ":r" prefix does mutate the state. -/
theorem C10_w_frame_counterexample :
    notification_handler empty_state ":w15=5000.\r\n"
      = (empty_state, [Ev.notificationReceived ":w15=5000."]) ∧
    (notification_handler empty_state ":r15=5000.\r\n").1 ≠ empty_state := by
  decide

/-- C10 amended: every inbound frame is stripped and re-emitted, but only
    frames starting with ":r" reach the decoder; any other frame,
    including a ":w" echo, only produces the notification event and leaves
    the state untouched.  The decoder itself is prefix-agnostic (it drops
    the first two characters), so the same frame text behind ":w" would
    decode identically, but the router never routes it. -/
theorem C10_router_r_only_amended (s : PState) (d : String)
    (h : pyStartsWith (String.mk (trimWs d.data)) ":r" = false) :
    notification_handler s d
      = (s, [Ev.notificationReceived (String.mk (trimWs d.data))]) ∧
    notification_handler empty_state ":r15=5000.\r\n"
      = ({ status := [("ch1_amplitude", SVal.q 5)], meas := [] },
         [Ev.notificationReceived ":r15=5000.",
          Ev.statusUpdated [("ch1_amplitude", SVal.q 5)]]) ∧
    parse_status_response empty_state ":w15=5000."
      = parse_status_response empty_state ":r15=5000." := by
  refine ⟨?_, by decide, by decide⟩
  simp [notification_handler, h]

/-- C10 witness: the amended router theorem applied to the concrete echo
    frame ":w15=5000." with its CR LF terminator. -/
theorem C10_router_r_only_amended_witness :
    notification_handler empty_state ":w15=5000.\r\n"
      = (empty_state,
         [Ev.notificationReceived (String.mk (trimWs (":w15=5000.\r\n").data))]) ∧
    notification_handler empty_state ":r15=5000.\r\n"
      = ({ status := [("ch1_amplitude", SVal.q 5)], meas := [] },
         [Ev.notificationReceived ":r15=5000.",
          Ev.statusUpdated [("ch1_amplitude", SVal.q 5)]]) ∧
    parse_status_response empty_state ":w15=5000."
      = parse_status_response empty_state ":r15=5000." :=
  C10_router_r_only_amended empty_state ":w15=5000.\r\n" (by decide)
